import Mathlib

/-!
Verification of the real-time transcription client
(`openai_realtime_api.py`): a shallow embedding of the event handler,
the downlink dispatch loop, the session run control flow, and the
base64 frame encoding, with theorems about their behaviour.
-/

/-- An inbound JSON event, abstracted to the fields the client reads.
Each field is `some v` when the key is present (with string value `v`)
and `none` when the key is absent, mirroring `"k" in event` /
`event.get`, `event["k"]` on the Python dict. -/
structure Event where
  type : Option String
  transcript : Option String
  delta : Option String
  item_id : Option String
deriving DecidableEq, Repr

/-- The ASCII whitespace characters recognized by Python's
`str.strip()`: space, tab, newline, carriage return, vertical tab,
form feed. -/
def isPySpace (c : Char) : Bool :=
  c == ' ' || c == '\t' || c == '\n' || c == '\r' || c == '\x0b' || c == '\x0c'

/-- Embeds Python's `str.strip()` (no arguments): remove leading and
trailing whitespace. -/
def pyStrip (s : String) : String :=
  ⟨((s.data.dropWhile isPySpace).reverse.dropWhile isPySpace).reverse⟩

/-- The record printed as `Output: {...}` by the handler:
`{"transcript": ..., "is_final": ..., "item_id": ...}`. -/
structure OutputRecord where
  transcript : String
  is_final : Bool
  item_id : String
deriving DecidableEq, Repr

/-- Embeds `OpenAIRealtimeTranscriber.on_transcription_completed`
(src/openai_realtime_api.py lines 39-59).  `text` starts `""` and
`is_final` starts `False`; a present `transcript` key sets both, a
present `delta` key then overwrites `text`; if the resulting text is
non-empty after stripping, the output record is built — evaluating
`event["item_id"]`, which raises `KeyError` when the key is absent
(modelled as `Except.error`). -/
def on_transcription_completed (event : Event) : Except String (Option OutputRecord) :=
  let text0 : String := ""
  let isFinal0 : Bool := false
  let text1 := match event.transcript with
    | some t => t
    | none => text0
  let isFinal1 := match event.transcript with
    | some _ => true
    | none => isFinal0
  let text2 := match event.delta with
    | some d => d
    | none => text1
  if pyStrip text2 = "" then Except.ok none
  else
    match event.item_id with
    | some id => Except.ok (some ⟨text2, isFinal1, id⟩)
    | none => Except.error "KeyError: item_id"

/-- One wire message as seen by the downlink loop: either it parses to
an `Event`, or `json.loads` raises `JSONDecodeError` (`malformed`). -/
inductive WireMessage where
  | malformed : WireMessage
  | valid : Event → WireMessage
deriving DecidableEq, Repr

/-- The event kinds the dispatcher's `if`/`elif` chain recognizes
(src/openai_realtime_api.py lines 73-90). -/
def recognizedKinds : List String :=
  ["session.created", "input_audio_buffer.speech_started",
   "input_audio_buffer.speech_stopped",
   "conversation.item.input_audio_transcription.delta",
   "conversation.item.input_audio_transcription.completed", "error"]

/-- Embeds the dispatch chain inside `handle_server_events`
(src/openai_realtime_api.py lines 71-94): `event.get("type", "")`
selects a handler; both transcription kinds go to
`on_transcription_completed`; the trailing `else` logs the kind.
Returns the output record the handler printed (if any) together with
the loop-level log lines; `Except.error` models an exception escaping
the chosen handler. -/
def dispatchEvent (event : Event) : Except String (Option OutputRecord × List String) :=
  let event_type := event.type.getD ""
  if event_type = "session.created" then Except.ok (none, ["Session created"])
  else if event_type = "input_audio_buffer.speech_started" then
    Except.ok (none, ["Speech started"])
  else if event_type = "input_audio_buffer.speech_stopped" then
    Except.ok (none, ["Speech stopped"])
  else if event_type = "conversation.item.input_audio_transcription.delta" then
    (on_transcription_completed event).map (fun o => (o, []))
  else if event_type = "conversation.item.input_audio_transcription.completed" then
    (on_transcription_completed event).map (fun o => (o, []))
  else if event_type = "error" then Except.ok (none, ["Error"])
  else Except.ok (none, ["Received event: " ++ event_type])

/-- Embeds the inner `try`/`except` of `handle_server_events`
(src/openai_realtime_api.py lines 69-99): a `JSONDecodeError` is
logged as a failed decode; any exception escaping a handler is logged
as an event-handling error; neither produces an output record and
neither escapes the loop body. -/
def handleMessage (msg : WireMessage) : Option OutputRecord × List String :=
  match msg with
  | .malformed => (none, ["Failed to decode message"])
  | .valid event =>
    match dispatchEvent event with
    | .ok r => r
    | .error e => (none, ["Error handling server event: " ++ e])

/-- Embeds the `async for message in self.websocket` downlink loop of
`handle_server_events` over a finite inbound message sequence,
collecting the output records and log lines in order. -/
def handle_server_events : List WireMessage → List OutputRecord × List String
  | [] => ([], [])
  | m :: rest =>
    ((handleMessage m).1.toList ++ (handle_server_events rest).1,
     (handleMessage m).2 ++ (handle_server_events rest).2)

/-- A well-formed transcription-delta event: `delta` text and
`item_id`, no `transcript` field. -/
def deltaEvent (d id : String) : Event :=
  ⟨some "conversation.item.input_audio_transcription.delta", none, some d, some id⟩

/-- A well-formed transcription-completed event: final `transcript`
text and `item_id`, no `delta` field. -/
def completedEvent (t id : String) : Event :=
  ⟨some "conversation.item.input_audio_transcription.completed", some t, none, some id⟩

/-- Number of `is_final=true` output records for a given `item_id`
emitted while processing a message sequence. -/
def finalsFor (i : String) (msgs : List WireMessage) : Nat :=
  ((handle_server_events msgs).1.filter (fun r => r.is_final && r.item_id == i)).length

/-- Outcome of the `try` body of `connect_and_run`
(src/openai_realtime_api.py lines 181-220), abstracted to what can
escape it: opening the websocket connection raises, sending (the
session config or an audio frame) raises, or the body runs to
completion after the stop trigger. -/
inductive BodyOutcome where
  | connectFailed : String → BodyOutcome
  | sendFailed : String → BodyOutcome
  | completed : BodyOutcome
deriving DecidableEq, Repr

/-- What a call to `connect_and_run` does, as observed by its caller:
the exception it re-raises (if any), the log lines it prints, and
whether `self.audio.terminate()` ran. -/
structure RunOutcome where
  raisedToCaller : Option String
  logs : List String
  audioTerminated : Bool
deriving DecidableEq, Repr

/-- Embeds the `try`/`except`/`finally` of
`OpenAIRealtimeTranscriber.connect_and_run`
(src/openai_realtime_api.py lines 181-226): `except Exception as e:`
catches every exception from the body and prints
`Connection error: ...`; the `finally` block calls
`self.audio.terminate()` on every path; nothing is re-raised. -/
def connect_and_run (body : BodyOutcome) : RunOutcome :=
  match body with
  | .connectFailed e => ⟨none, ["Connection error: " ++ e], true⟩
  | .sendFailed e => ⟨none, ["Connection error: " ++ e], true⟩
  | .completed => ⟨none, [], true⟩

/-- The base64 alphabet (RFC 4648), as used by Python's
`base64.b64encode`: sextet value to character. -/
def b64Alphabet (s : Nat) : Char :=
  if s < 26 then Char.ofNat (65 + s)
  else if s < 52 then Char.ofNat (97 + (s - 26))
  else if s < 62 then Char.ofNat (48 + (s - 52))
  else if s = 62 then '+'
  else '/'

/-- Inverse of the base64 alphabet: character to sextet value, `none`
for a character outside the alphabet. -/
def b64Index (c : Char) : Option Nat :=
  let n := c.toNat
  if 65 ≤ n ∧ n ≤ 90 then some (n - 65)
  else if 97 ≤ n ∧ n ≤ 122 then some (n - 97 + 26)
  else if 48 ≤ n ∧ n ≤ 57 then some (n - 48 + 52)
  else if n = 43 then some 62
  else if n = 47 then some 63
  else none

/-- Embeds the Frame Encoder
(`base64.b64encode(audio_data).decode("utf-8")`,
src/openai_realtime_api.py line 149): standard base64 of a byte
sequence (each byte a `Nat` below 256), three bytes to four
characters, `=`-padded. -/
def b64encode : List Nat → List Char
  | [] => []
  | [a] => [b64Alphabet (a / 4), b64Alphabet (a % 4 * 16), '=', '=']
  | [a, b] =>
    [b64Alphabet (a / 4), b64Alphabet (a % 4 * 16 + b / 16),
     b64Alphabet (b % 16 * 4), '=']
  | a :: b :: c :: rest =>
    b64Alphabet (a / 4) :: b64Alphabet (a % 4 * 16 + b / 16) ::
    b64Alphabet (b % 16 * 4 + c / 64) :: b64Alphabet (c % 64) :: b64encode rest

/-- The simulated receiver: standard base64 decoding, four characters
to three bytes, handling `=` padding on the final group; `none` on
input that is not well-formed base64. -/
def b64decode : List Char → Option (List Nat)
  | [] => some []
  | c1 :: c2 :: c3 :: c4 :: rest =>
    match b64Index c1, b64Index c2 with
    | some s1, some s2 =>
      if c3 = '=' then
        if c4 = '=' ∧ rest = [] then some [s1 * 4 + s2 / 16] else none
      else
        match b64Index c3 with
        | some s3 =>
          if c4 = '=' then
            if rest = [] then some [s1 * 4 + s2 / 16, s2 % 16 * 16 + s3 / 4]
            else none
          else
            match b64Index c4 with
            | some s4 =>
              (b64decode rest).map
                (fun ds => (s1 * 4 + s2 / 16) :: (s2 % 16 * 16 + s3 / 4) ::
                           (s3 % 4 * 64 + s4) :: ds)
            | none => none
        | none => none
    | _, _ => none
  | _ => none

/-- The text the handler ends up testing and emitting: the `delta`
field if present (it overwrites), else the `transcript` field, else
the initial `""`. -/
def selectedText (e : Event) : String :=
  match e.delta with
  | some d => d
  | none =>
    match e.transcript with
    | some t => t
    | none => ""

/-- The `is_final` flag the handler ends up with: set exactly when the
`transcript` key is present. -/
def finalFlag (e : Event) : Bool :=
  match e.transcript with
  | some _ => true
  | none => false

instance {ε α : Type} [DecidableEq ε] [DecidableEq α] : DecidableEq (Except ε α) :=
  fun x y =>
    match x, y with
    | .ok a, .ok b =>
      if h : a = b then isTrue (by rw [h]) else isFalse (by simp [h])
    | .error a, .error b =>
      if h : a = b then isTrue (by rw [h]) else isFalse (by simp [h])
    | .ok _, .error _ => isFalse (by simp)
    | .error _, .ok _ => isFalse (by simp)

example : on_transcription_completed (deltaEvent "hel" "i1") =
    Except.ok (some ⟨"hel", false, "i1"⟩) := by decide

example : on_transcription_completed (completedEvent "hello" "i1") =
    Except.ok (some ⟨"hello", true, "i1"⟩) := by decide

example : on_transcription_completed ⟨some "x", some "hello", some "hel", some "i1"⟩ =
    Except.ok (some ⟨"hel", true, "i1"⟩) := by decide

example : b64decode (b64encode [77, 97, 110]) = some [77, 97, 110] := by decide

example : b64decode (b64encode [77, 97]) = some [77, 97] := by decide

example : b64decode (b64encode [77]) = some [77] := by decide

theorem on_transcription_completed_eq (e : Event) :
    on_transcription_completed e =
      if pyStrip (selectedText e) = "" then Except.ok none
      else
        match e.item_id with
        | some id => Except.ok (some ⟨selectedText e, finalFlag e, id⟩)
        | none => Except.error "KeyError: item_id" := by
  obtain ⟨ty, tr, dl, id⟩ := e
  cases tr <;> cases dl <;> rfl

theorem handle_server_events_append (xs ys : List WireMessage) :
    handle_server_events (xs ++ ys) =
      ((handle_server_events xs).1 ++ (handle_server_events ys).1,
       (handle_server_events xs).2 ++ (handle_server_events ys).2) := by
  induction xs with
  | nil => simp [handle_server_events]
  | cons m rest ih => simp [handle_server_events, ih]

/-- C1 counterexample: on the event carrying both a final transcript
`"hello"` and a delta `"hel"`, the handler emits transcript `"hel"`
(the `delta` field's value), not the final `transcript` field's value
`"hello"`, so the final field is not authoritative for the text. -/
theorem c1_both_fields_counterexample :
    on_transcription_completed
        ⟨some "conversation.item.input_audio_transcription.completed",
         some "hello", some "hel", some "i1"⟩ =
      Except.ok (some ⟨"hel", true, "i1"⟩) ∧ ("hel" : String) ≠ "hello" := by
  constructor
  · decide
  · decide

/-- C1 (amended): for an event carrying both a non-empty-after-strip
`delta` field and a final `transcript` field, the final field wins
only for the flag: the output record has is_final=true, but its
transcript is the `delta` field's value, which overwrites the
`transcript` field's text. -/
theorem c1_both_fields_delta_text_wins (t d id : String) (h : pyStrip d ≠ "") :
    on_transcription_completed
        ⟨some "conversation.item.input_audio_transcription.completed",
         some t, some d, some id⟩ =
      Except.ok (some ⟨d, true, id⟩) := by
  simp [on_transcription_completed, h]

/-- C1 witness: the amended theorem applied at transcript `"hello"`,
delta `"hel"`, item `"i1"`. -/
theorem c1_both_fields_delta_text_wins_witness :
    pyStrip "hel" ≠ "" ∧
    on_transcription_completed
        ⟨some "conversation.item.input_audio_transcription.completed",
         some "hello", some "hel", some "i1"⟩ =
      Except.ok (some ⟨"hel", true, "i1"⟩) :=
  ⟨by decide, c1_both_fields_delta_text_wins "hello" "hel" "i1" (by decide)⟩

/-- C3 counterexample: when opening the connection (or sending) fails,
`connect_and_run` raises nothing to its caller — the exception is
absorbed by its `except` clause, contradicting the claim that the
`ConnectionError` is propagated. -/
theorem c3_failure_not_propagated_counterexample :
    (connect_and_run (.connectFailed "connection refused")).raisedToCaller = none ∧
    (connect_and_run (.sendFailed "socket closed")).raisedToCaller = none := by
  constructor
  · rfl
  · rfl

/-- C3 (amended): when opening the connection or sending over the
transport fails, the run operation ends early, but the failure is
absorbed inside `connect_and_run`: it is logged as
`Connection error: ...` and nothing is propagated to the caller;
full teardown of the audio resource (`self.audio.terminate()`) still
occurs on every such path. -/
theorem c3_failure_logged_teardown_runs (e : String) :
    connect_and_run (.connectFailed e) =
        ⟨none, ["Connection error: " ++ e], true⟩ ∧
    connect_and_run (.sendFailed e) =
        ⟨none, ["Connection error: " ++ e], true⟩ := by
  constructor
  · rfl
  · rfl

/-- C4: a transcription-delta or transcription-completed event whose
characteristic text field strips to the empty string produces no
output record from the downlink loop body. -/
theorem c4_whitespace_only_no_output (e : Event)
    (htype : e.type = some "conversation.item.input_audio_transcription.delta" ∨
      e.type = some "conversation.item.input_audio_transcription.completed") :
    (∀ d, e.delta = some d → pyStrip d = "" →
      (handleMessage (.valid e)).1 = none) ∧
    (e.delta = none → ∀ t, e.transcript = some t → pyStrip t = "" →
      (handleMessage (.valid e)).1 = none) := by
  have hsel : ∀ hstrip : pyStrip (selectedText e) = "",
      (handleMessage (.valid e)).1 = none := by
    intro hstrip
    have h := on_transcription_completed_eq e
    rw [hstrip] at h
    simp only [if_pos rfl] at h
    rcases htype with ht | ht <;>
      simp [handleMessage, dispatchEvent, ht, h, Except.map]
  constructor
  · intro d hd hstrip
    exact hsel (by simp [selectedText, hd, hstrip])
  · intro hd t ht hstrip
    exact hsel (by simp [selectedText, hd, ht, hstrip])

/-- C4 witness: Scenario C — the whitespace-only delta event
`{"type": ...delta, "delta": "   ", "item_id": "i2"}` yields no
output record. -/
theorem c4_whitespace_only_no_output_witness :
    pyStrip "   " = "" ∧
    (handleMessage (.valid (deltaEvent "   " "i2"))).1 = none :=
  ⟨by decide,
   (c4_whitespace_only_no_output (deltaEvent "   " "i2") (by decide)).1
     "   " (by decide) (by decide)⟩

/-- C5: a well-formed delta event with non-empty-after-strip text `d`
and item `id` makes the loop body emit exactly
`(transcript := d, is_final := false, item_id := id)`, and a
well-formed completed event with non-empty-after-strip text `t` emits
exactly `(transcript := t, is_final := true, item_id := id)`. -/
theorem c5_delta_and_completed_outputs (d t id : String)
    (hd : pyStrip d ≠ "") (ht : pyStrip t ≠ "") :
    handleMessage (.valid (deltaEvent d id)) = (some ⟨d, false, id⟩, []) ∧
    handleMessage (.valid (completedEvent t id)) = (some ⟨t, true, id⟩, []) := by
  constructor
  · simp [handleMessage, dispatchEvent, deltaEvent, on_transcription_completed, hd,
      Except.map]
  · simp [handleMessage, dispatchEvent, completedEvent, on_transcription_completed, ht,
      Except.map]

/-- C5 witness: Scenarios A and B — delta `"hel"` for item `"i1"`
emits `("hel", false, "i1")`, and completed `"hello"` emits
`("hello", true, "i1")`. -/
theorem c5_delta_and_completed_outputs_witness :
    pyStrip "hel" ≠ "" ∧ pyStrip "hello" ≠ "" ∧
    handleMessage (.valid (deltaEvent "hel" "i1")) = (some ⟨"hel", false, "i1"⟩, []) ∧
    handleMessage (.valid (completedEvent "hello" "i1")) = (some ⟨"hello", true, "i1"⟩, []) :=
  ⟨by decide, by decide,
   c5_delta_and_completed_outputs "hel" "hello" "i1" (by decide) (by decide)⟩

/-- C6: dispatching a well-formed event whose kind is none of the six
recognized kinds never raises: the dispatcher returns normally
(`Except.ok`), logs `Received event: <kind>`, emits no output record,
and the downlink loop goes on to process the remaining messages. -/
theorem c6_unknown_kind_total (e : Event) (rest : List WireMessage)
    (h : e.type.getD "" ∉ recognizedKinds) :
    dispatchEvent e = Except.ok (none, ["Received event: " ++ e.type.getD ""]) ∧
    handle_server_events (.valid e :: rest) =
      ((handle_server_events rest).1,
       ("Received event: " ++ e.type.getD "") :: (handle_server_events rest).2) := by
  simp only [recognizedKinds, List.mem_cons, List.mem_singleton, not_or] at h
  obtain ⟨h1, h2, h3, h4, h5, h6⟩ := h
  have hd : dispatchEvent e =
      Except.ok (none, ["Received event: " ++ e.type.getD ""]) := by
    simp [dispatchEvent, h1, h2, h3, h4, h5, h6]
  exact ⟨hd, by simp [handle_server_events, handleMessage, hd]⟩

/-- C6 witness: an event of unrecognized kind `response.created` is
absorbed: logged, no output, loop continues over an empty tail. -/
theorem c6_unknown_kind_total_witness :
    (⟨some "response.created", none, none, none⟩ : Event).type.getD "" ∉ recognizedKinds ∧
    dispatchEvent ⟨some "response.created", none, none, none⟩ =
      Except.ok (none, ["Received event: " ++
        (⟨some "response.created", none, none, none⟩ : Event).type.getD ""]) ∧
    handle_server_events [.valid ⟨some "response.created", none, none, none⟩] =
      ((handle_server_events []).1,
       ("Received event: " ++
         (⟨some "response.created", none, none, none⟩ : Event).type.getD "") ::
         (handle_server_events []).2) :=
  ⟨by decide,
   c6_unknown_kind_total ⟨some "response.created", none, none, none⟩ [] (by decide)⟩

/-- C7: a malformed (non-parseable) wire message is logged as a decode
failure and recovered locally: it contributes no output record, and
the outputs of any surrounding sequence are exactly the outputs of the
messages before it followed by the outputs of the messages after it. -/
theorem c7_malformed_logged_loop_continues (pre post : List WireMessage) :
    handleMessage .malformed = (none, ["Failed to decode message"]) ∧
    (handle_server_events (pre ++ .malformed :: post)).1 =
      (handle_server_events pre).1 ++ (handle_server_events post).1 ∧
    "Failed to decode message" ∈ (handle_server_events (pre ++ .malformed :: post)).2 := by
  refine ⟨rfl, ?_, ?_⟩
  · rw [handle_server_events_append]
    simp [handle_server_events, handleMessage]
  · rw [handle_server_events_append]
    simp [handle_server_events, handleMessage]

/-- C9: trimming only gates emission — whenever the handler emits an
output record, its transcript is exactly the raw value of the `delta`
field (when present) or of the `transcript` field, unmodified, so
leading and trailing whitespace of the fragment is preserved. -/
theorem c9_transcript_emitted_unmodified (e : Event) (r : OutputRecord)
    (h : on_transcription_completed e = Except.ok (some r)) :
    e.delta = some r.transcript ∨
      (e.delta = none ∧ e.transcript = some r.transcript) := by
  rw [on_transcription_completed_eq e] at h
  by_cases hstrip : pyStrip (selectedText e) = ""
  · rw [if_pos hstrip] at h
    simp at h
  · rw [if_neg hstrip] at h
    cases hid : e.item_id with
    | none => rw [hid] at h; simp at h
    | some id =>
      rw [hid] at h
      simp only [Except.ok.injEq, Option.some.injEq] at h
      have hr : r.transcript = selectedText e := by rw [← h]
      cases hd : e.delta with
      | some d =>
        left
        rw [hr]
        simp [selectedText, hd]
      | none =>
        right
        cases ht : e.transcript with
        | some t =>
          refine ⟨rfl, ?_⟩
          rw [hr]
          simp [selectedText, hd, ht]
        | none =>
          exfalso
          apply hstrip
          simp [selectedText, hd, ht, pyStrip]

/-- C9 witness: a delta fragment `" hel "` with surrounding whitespace
is emitted with that whitespace intact. -/
theorem c9_transcript_emitted_unmodified_witness :
    on_transcription_completed (deltaEvent " hel " "i1") =
      Except.ok (some ⟨" hel ", false, "i1"⟩) ∧
    (deltaEvent " hel " "i1").delta = some " hel " :=
  ⟨by decide,
   by
    have h := c9_transcript_emitted_unmodified (deltaEvent " hel " "i1")
      ⟨" hel ", false, "i1"⟩ (by decide)
    rcases h with h | h
    · exact h
    · exact absurd h.1 (by decide)⟩

/-- C10: a transcription-delta or transcription-completed event whose
selected text does not strip to empty but which lacks `item_id` makes
the handler raise (`event["item_id"]`, a missing-key lookup); the
downlink loop body catches it, logs the handling error, emits no
output record, and the loop continues with the remaining messages. -/
theorem c10_missing_item_id_caught (e : Event) (rest : List WireMessage)
    (htype : e.type = some "conversation.item.input_audio_transcription.delta" ∨
      e.type = some "conversation.item.input_audio_transcription.completed")
    (hne : pyStrip (selectedText e) ≠ "") (hid : e.item_id = none) :
    on_transcription_completed e = Except.error "KeyError: item_id" ∧
    handleMessage (.valid e) =
      (none, ["Error handling server event: KeyError: item_id"]) ∧
    handle_server_events (.valid e :: rest) =
      ((handle_server_events rest).1,
       "Error handling server event: KeyError: item_id" ::
         (handle_server_events rest).2) := by
  have hraise : on_transcription_completed e = Except.error "KeyError: item_id" := by
    rw [on_transcription_completed_eq e, if_neg hne, hid]
  have hmsg : handleMessage (.valid e) =
      (none, ["Error handling server event: KeyError: item_id"]) := by
    rcases htype with ht | ht <;>
      simp [handleMessage, dispatchEvent, ht, hraise, Except.map]
  exact ⟨hraise, hmsg, by simp [handle_server_events, hmsg]⟩

/-- C10 witness: a delta event with text `"hi"` and no `item_id`
raises a caught, logged `KeyError`; no output; the loop goes on. -/
theorem c10_missing_item_id_caught_witness :
    pyStrip (selectedText ⟨some "conversation.item.input_audio_transcription.delta",
      none, some "hi", none⟩) ≠ "" ∧
    on_transcription_completed ⟨some "conversation.item.input_audio_transcription.delta",
      none, some "hi", none⟩ = Except.error "KeyError: item_id" ∧
    handleMessage (.valid ⟨some "conversation.item.input_audio_transcription.delta",
      none, some "hi", none⟩) =
      (none, ["Error handling server event: KeyError: item_id"]) ∧
    handle_server_events [.valid ⟨some "conversation.item.input_audio_transcription.delta",
      none, some "hi", none⟩] =
      ((handle_server_events []).1,
       "Error handling server event: KeyError: item_id" ::
         (handle_server_events []).2) :=
  ⟨by decide,
   c10_missing_item_id_caught
     ⟨some "conversation.item.input_audio_transcription.delta", none, some "hi", none⟩
     [] (by decide) (by decide) (by decide)⟩

/-- C2 counterexample: (i) a delta `"hel"` followed by a completed
event whose transcript is whitespace-only for the same item yields
zero `is_final=true` records, not exactly one; (ii) the handler keeps
no per-item state: a delta arriving after the completed event for
`"i1"` still emits a further output record for `"i1"`. -/
theorem c2_stateless_counterexample :
    finalsFor "i1"
      [.valid (deltaEvent "hel" "i1"), .valid (completedEvent "   " "i1")] = 0 ∧
    (handle_server_events
      [.valid (deltaEvent "hel" "i1"), .valid (completedEvent "hello" "i1"),
       .valid (deltaEvent "lo" "i1")]).1 =
      [⟨"hel", false, "i1"⟩, ⟨"hello", true, "i1"⟩, ⟨"lo", false, "i1"⟩] := by
  constructor
  · decide
  · decide

/-- C2 (amended): for any run of well-formed delta events for item `i`
followed by a well-formed completed event for `i` whose transcript is
non-empty after stripping, processing the sequence emits exactly one
`is_final=true` output record for `i`; but the handler keeps no
per-item state, so any later delta event for `i` with
non-empty-after-strip text emits a further output record for `i`. -/
theorem c2_one_final_but_stateless (ds : List String) (i t : String)
    (ht : pyStrip t ≠ "") :
    finalsFor i (ds.map (fun d => WireMessage.valid (deltaEvent d i)) ++
      [.valid (completedEvent t i)]) = 1 ∧
    ∀ (msgs : List WireMessage) (d2 : String), pyStrip d2 ≠ "" →
      (handle_server_events (msgs ++ [.valid (deltaEvent d2 i)])).1 =
        (handle_server_events msgs).1 ++ [⟨d2, false, i⟩] := by
  constructor
  · induction ds with
    | nil =>
      simp [finalsFor, handle_server_events, handleMessage, dispatchEvent,
        completedEvent, on_transcription_completed, ht, Except.map]
    | cons d ds ih =>
      have hcase : (handleMessage (.valid (deltaEvent d i))).1 = none ∨
          (handleMessage (.valid (deltaEvent d i))).1 = some ⟨d, false, i⟩ := by
        by_cases hd : pyStrip d = ""
        · left
          simp [handleMessage, dispatchEvent, deltaEvent, on_transcription_completed,
            hd, Except.map]
        · right
          simp [handleMessage, dispatchEvent, deltaEvent, on_transcription_completed,
            hd, Except.map]
      have hfilter : (((handleMessage (.valid (deltaEvent d i))).1.toList).filter
          (fun r => r.is_final && r.item_id == i)) = [] := by
        rcases hcase with h | h <;> simp [h]
      simp only [List.map_cons, List.cons_append, finalsFor, handle_server_events,
        List.filter_append, List.length_append] at ih ⊢
      rw [hfilter]
      simpa using ih
  · intro msgs d2 hd2
    rw [handle_server_events_append]
    simp [handle_server_events, handleMessage, dispatchEvent, deltaEvent,
      on_transcription_completed, hd2, Except.map]

/-- C2 witness: the amended theorem at delta `["hel"]`, item `"i1"`,
final transcript `"hello"`, with the stateless part applied to a delta
`"lo"` arriving after a completed event for the same item. -/
theorem c2_one_final_but_stateless_witness :
    pyStrip "hello" ≠ "" ∧
    finalsFor "i1" ((["hel"].map (fun d => WireMessage.valid (deltaEvent d "i1"))) ++
      [.valid (completedEvent "hello" "i1")]) = 1 ∧
    (handle_server_events ([.valid (completedEvent "hello" "i1")] ++
      [.valid (deltaEvent "lo" "i1")])).1 =
      (handle_server_events [.valid (completedEvent "hello" "i1")]).1 ++
        [⟨"lo", false, "i1"⟩] :=
  ⟨by decide,
   (c2_one_final_but_stateless ["hel"] "i1" "hello" (by decide)).1,
   (c2_one_final_but_stateless [] "i1" "hello" (by decide)).2
     [.valid (completedEvent "hello" "i1")] "lo" (by decide)⟩

theorem b64Index_b64Alphabet : ∀ s : Nat, s < 64 → b64Index (b64Alphabet s) = some s := by
  decide

theorem b64Alphabet_ne_pad : ∀ s : Nat, s < 64 → b64Alphabet s ≠ '=' := by
  decide

/-- C8: the frame encoding is reversible and information-preserving —
base64-encoding any raw PCM byte buffer and decoding the resulting
text on the receiver recovers exactly the original bytes. -/
theorem b64_roundtrip : ∀ (bs : List Nat), (∀ b ∈ bs, b < 256) →
    b64decode (b64encode bs) = some bs
  | [], _ => rfl
  | [a], h => by
    have ha : a < 256 := h a (by simp)
    have h1 := b64Index_b64Alphabet (a / 4) (by omega)
    have h2 := b64Index_b64Alphabet (a % 4 * 16) (by omega)
    simp only [b64encode, b64decode, h1, h2]
    norm_num
    omega
  | [a, b], h => by
    have ha : a < 256 := h a (by simp)
    have hb : b < 256 := h b (by simp)
    have h1 := b64Index_b64Alphabet (a / 4) (by omega)
    have h2 := b64Index_b64Alphabet (a % 4 * 16 + b / 16) (by omega)
    have h3 := b64Index_b64Alphabet (b % 16 * 4) (by omega)
    have hne3 := b64Alphabet_ne_pad (b % 16 * 4) (by omega)
    simp only [b64encode, b64decode, h1, h2, h3, if_neg hne3]
    norm_num
    constructor
    · omega
    · omega
  | a :: b :: c :: rest, h => by
    have ha : a < 256 := h a (by simp)
    have hb : b < 256 := h b (by simp)
    have hc : c < 256 := h c (by simp)
    have ih := b64_roundtrip rest (fun x hx => h x (by simp [hx]))
    have h1 := b64Index_b64Alphabet (a / 4) (by omega)
    have h2 := b64Index_b64Alphabet (a % 4 * 16 + b / 16) (by omega)
    have h3 := b64Index_b64Alphabet (b % 16 * 4 + c / 64) (by omega)
    have h4 := b64Index_b64Alphabet (c % 64) (by omega)
    have hne3 := b64Alphabet_ne_pad (b % 16 * 4 + c / 64) (by omega)
    have hne4 := b64Alphabet_ne_pad (c % 64) (by omega)
    simp only [b64encode, b64decode, h1, h2, h3, h4, if_neg hne3, if_neg hne4, ih]
    norm_num
    refine ⟨?_, ?_, ?_⟩
    · omega
    · omega
    · omega

/-- C8 witness: the round trip at the concrete buffer
`[0, 255, 77, 97, 110, 16]`. -/
theorem b64_roundtrip_witness :
    b64decode (b64encode [0, 255, 77, 97, 110, 16]) = some [0, 255, 77, 97, 110, 16] :=
  b64_roundtrip [0, 255, 77, 97, 110, 16] (by decide)
